import Mathlib

/-!
# Shallow embedding of the mid-stock signal scanner

This file embeds the signal-scanning core of the repository
(`indicators.py`, `liquidity_sweep_detector.py`, `false_breakout_detector.py`,
`engulfing_detector.py`, `mid_signal_scanner.py`, constants from `config.py`,
and the `log_exceptions` decorator from `logs.py`) and proves the spec's
claims about it.

Modelling conventions:
* A pandas dataframe row becomes a `Candle`; a dataframe becomes `List Candle`
  in chronological order.  Column access `df['Close']` becomes `df.map close`.
* Python floats are modelled as exact rationals `ℚ`.  Pandas/NumPy NaN values
  (which arise in the RSI computation) are modelled as `Option ℚ` with `none`
  for NaN; every NaN comparison is `False`, as in Python.
* `round(x, d)` is Python's round-half-to-even, modelled exactly on `ℚ`.
* Negative `iloc` access (`df.iloc[-1]`, `df.iloc[-2]`) can raise `IndexError`;
  functions whose body can raise are written as `Except Unit _` and wrapped by
  `log_exceptions` (the decorator in `logs.py` that catches every exception and
  returns `None`).  Division is total on `ℚ` (`x / 0 = 0`); every division the
  claims exercise is behind the source's own zero guards.
* Log statements, the formatted f-string message texts, the `timestamp` field
  (wall clock) and the `dataframe` back-reference of a built signal are
  presentation-only and not modelled; the numeric and structural content of
  every record is.
-/

/-- One OHLCV row of the dataframe (`Open`, `High`, `Low`, `Close`, `Volume`).
`open` is a Lean keyword, hence the trailing underscore. -/
structure Candle where
  open_ : ℚ
  high : ℚ
  low : ℚ
  close : ℚ
  volume : ℚ
deriving DecidableEq, Repr

/-! ## Constants from `config.py` (names ending in `RATIO` carry a trailing
underscore). -/

def STOP_LOSS_PERCENTAGE : ℚ := 1.5

def TARGET_PERCENTAGE_1 : ℚ := 2.0

def TARGET_PERCENTAGE_2 : ℚ := 3.5

def MIN_RISK_REWARD_RATIO_ : ℚ := 1.2

def SWEEP_WICK_RATIO_ : ℚ := 0.5

def SWEEP_LOOKBACK : ℕ := 20

def SWEEP_REVERSAL_BODY : ℚ := 0.35

def BREAKOUT_VOLUME_MULTIPLIER : ℚ := 1.2

def SR_TOUCH_THRESHOLD : ℚ := 0.8

def SR_LOOKBACK_DAYS : ℕ := 20

def RSI_PERIOD : ℕ := 14

def VOLUME_MA_PERIOD : ℕ := 20

def MIN_VOLUME_RATIO_ : ℚ := 1.1

/-! ## Python helpers -/

/-- Python's `round` to an integer: round half to even (banker's rounding). -/
def pyRound (x : ℚ) : ℤ :=
  let f := ⌊x⌋
  let r := x - (f : ℚ)
  if r < 1 / 2 then f
  else if 1 / 2 < r then f + 1
  else if f % 2 = 0 then f else f + 1

/-- Python's `round(x, d)`. -/
def round_to (d : ℕ) (x : ℚ) : ℚ := (pyRound (x * 10 ^ d) : ℚ) / 10 ^ d

/-- `round(x, 2)`, used throughout the source. -/
def round2 (x : ℚ) : ℚ := round_to 2 x

/-- Pandas `df.tail(n)`: the last `n` rows (all rows when `n ≥ len`). -/
def pytail (df : List α) (n : ℕ) : List α := df.drop (df.length - n)

/-- `len(str(int(x)))` for a Python number `x` (digit count of the truncated
integer part, plus one for a minus sign). -/
def py_int_str_len (x : ℚ) : ℕ :=
  let n : ℤ := if x < 0 then -⌊-x⌋ else ⌊x⌋
  let digits : ℕ → ℕ := fun m => if m = 0 then 1 else Nat.log 10 m + 1
  if n < 0 then 1 + digits (-n).toNat else digits n.toNat

/-- Python's `min(levels, key=...)` on a nonempty list: the first element with
the strictly smallest key. -/
def py_min_key (key : ℚ → ℚ) : List ℚ → Option ℚ
  | [] => none
  | x :: xs => some (xs.foldl (fun b y => if key y < key b then y else b) x)

/-- The `log_exceptions` decorator of `logs.py`: run the body; a raised
exception is caught and turned into a `None` return. -/
def log_exceptions (x : Except Unit α) : Option α :=
  match x with
  | .ok v => some v
  | .error _ => none

/-! ## `indicators.py` -/

/-- `close.diff()` at position `i`: NaN (`none`) at position 0, else the delta
to the previous close. -/
def pydelta (close : List ℚ) (i : ℕ) : Option ℚ :=
  if i = 0 ∨ close.length ≤ i then none
  else some (close.getD i 0 - close.getD (i - 1) 0)

/-- `delta.where(delta > 0, 0)` at position `i` (a NaN delta compares false,
so position 0 becomes 0). -/
def gain_raw (close : List ℚ) (i : ℕ) : ℚ :=
  match pydelta close i with
  | none => 0
  | some d => if 0 < d then d else 0

/-- `(-delta.where(delta < 0, 0))` at position `i`. -/
def loss_raw (close : List ℚ) (i : ℕ) : ℚ :=
  match pydelta close i with
  | none => 0
  | some d => if d < 0 then -d else 0

/-- `series.rolling(window=period).mean()` at position `i`: NaN (`none`) until
`period` values are available, then the windowed mean. -/
def roll_mean (f : ℕ → ℚ) (period i : ℕ) : Option ℚ :=
  if i + 1 < period then none
  else some ((((List.range period).map fun j => f (i + 1 - period + j)).sum) / period)

/-- The RSI value of `calculate_rsi` at position `i`, with pandas float
semantics made explicit: a NaN rolling mean propagates to NaN; a zero average
loss gives `rs = gain/0 = ∞` hence RSI `100 - 100/(1+∞) = 100` when the
average gain is positive, and `rs = 0/0 = NaN` hence RSI NaN when it is zero. -/
def rsi_at (close : List ℚ) (period i : ℕ) : Option ℚ :=
  match roll_mean (gain_raw close) period i, roll_mean (loss_raw close) period i with
  | some g, some l =>
      if l = 0 then (if g = 0 then none else some 100)
      else some (100 - 100 / (1 + g / l))
  | _, _ => none

/-- `IndicatorAnalyzer.calculate_rsi`.  A window of 0 makes pandas `rolling`
raise, which the function's own `except` turns into a series of 50s; otherwise
the result is the positionwise RSI series. -/
def calculate_rsi (close : List ℚ) (period : ℕ) : List (Option ℚ) :=
  if period = 0 then close.map fun _ => some 50
  else (List.range close.length).map (rsi_at close period)

/-- `IndicatorAnalyzer.check_volume_confirmation` (default period 20):
`(is_confirmed, volume_ratio)`. -/
def check_volume_confirmation (df : List Candle) (period : ℕ) : Bool × ℚ :=
  if df.length < period then (false, 1)
  else
    let current_volume := ((df.map Candle.volume).getLast?).getD 0
    let avg_volume := ((pytail df period).map Candle.volume).sum / period
    if avg_volume = 0 then (false, 1)
    else
      let volume_ratio := current_volume / avg_volume
      (decide (volume_ratio ≥ MIN_VOLUME_RATIO_), volume_ratio)

/-- The local-maxima pass of `calculate_support_resistance`
(`for i in range(2, len(recent_df) - 2)`): strict local highs. -/
def local_maxima (highs : List ℚ) : List ℚ :=
  (List.range highs.length).filterMap fun i =>
    if 2 ≤ i ∧ i + 2 < highs.length ∧
       highs.getD (i - 1) 0 < highs.getD i 0 ∧ highs.getD (i - 2) 0 < highs.getD i 0 ∧
       highs.getD (i + 1) 0 < highs.getD i 0 ∧ highs.getD (i + 2) 0 < highs.getD i 0
    then some (highs.getD i 0) else none

/-- Strict local lows, symmetric to `local_maxima`. -/
def local_minima (lows : List ℚ) : List ℚ :=
  (List.range lows.length).filterMap fun i =>
    if 2 ≤ i ∧ i + 2 < lows.length ∧
       lows.getD i 0 < lows.getD (i - 1) 0 ∧ lows.getD i 0 < lows.getD (i - 2) 0 ∧
       lows.getD i 0 < lows.getD (i + 1) 0 ∧ lows.getD i 0 < lows.getD (i + 2) 0
    then some (lows.getD i 0) else none

/-- The candidate-gathering part of `calculate_support_resistance` (source
lines 62-110): local extrema, window swing high/low, psychological round
levels, then `sorted(list(set(round(x, 2) ...)))` for each side.  Returns
`(support_levels, resistance_levels)` as they stand before the final
proximity filter. -/
def sr_raw_levels (df : List Candle) : List ℚ × List ℚ :=
  let recent_df := pytail df SR_LOOKBACK_DAYS
  let highs := recent_df.map Candle.high
  let lows := recent_df.map Candle.low
  let closes := recent_df.map Candle.close
  let resistance_levels := local_maxima highs
  let support_levels := local_minima lows
  let recent_high := (highs.max?).getD 0
  let recent_low := (lows.min?).getD 0
  let resistance_levels := resistance_levels ++ [recent_high]
  let support_levels := support_levels ++ [recent_low]
  let current_price := (closes.getLast?).getD 0
  let price_range := recent_high - recent_low
  let round_levels : List ℚ :=
    if 0 < price_range then
      let step : ℚ := (10 : ℚ) ^ ((py_int_str_len current_price : ℤ) - 2)
      ((List.range 7).map fun k =>
          (pyRound (current_price / step) : ℚ) * step + ((k : ℤ) - 3) * step).filter
        fun level => recent_low ≤ level ∧ level ≤ recent_high
    else []
  let resistance_levels := resistance_levels ++ round_levels.filter fun level => current_price < level
  let support_levels := support_levels ++ round_levels.filter fun level => level < current_price
  (((support_levels.map round2).dedup).insertionSort (· ≤ ·),
   ((resistance_levels.map round2).dedup).insertionSort (· ≤ ·))

/-- `IndicatorAnalyzer.calculate_support_resistance` (lookback defaulting to
`SR_LOOKBACK_DAYS`).  An empty frame makes `closes[-1]` raise `IndexError`,
which the function's own `except` turns into `([], [])`; otherwise the raw
candidates of `sr_raw_levels` are filtered strictly against the current
price (the last close, re-read at source line 113), re-sorted supports
descending / resistances ascending and truncated to the nearest 5. -/
def calculate_support_resistance (df : List Candle) : List ℚ × List ℚ :=
  match (df.map Candle.close).getLast? with
  | none => ([], [])
  | some _ =>
    let current_price := (((pytail df SR_LOOKBACK_DAYS).map Candle.close).getLast?).getD 0
    let raw := sr_raw_levels df
    (((raw.1.filter fun s => s < current_price).insertionSort (· ≥ ·)).take 5,
     ((raw.2.filter fun r => current_price < r).insertionSort (· ≤ ·)).take 5)

/-! ## Pattern signals and trade signals -/

/-- The raw pattern-match dict produced by a detector.  Keys that only some
detectors set are `Option` fields (reading an absent key raises `KeyError`).
The formatted `confirmation` message text is not modelled. -/
structure PatternSignal where
  type : String
  pattern_name : String
  pattern_strength : String
  sweep_level : Option ℚ := none
  wick_ratio : Option ℚ := none
  fakeout_level : Option ℚ := none
  key_level : Option ℚ := none
  level_type : Option String := none
deriving DecidableEq, Repr

/-- The complete trade signal built by `_build_signal`.  The wall-clock
`timestamp`, the `dataframe` back-reference, `pattern_details` and the numeric
text inside confirmation tags are presentation-only and not modelled;
`confirmations` keeps the tag kinds in order. -/
structure Signal where
  symbol : String
  signal_type : String
  pattern_name : String
  pattern_strength : String
  entry_price : ℚ
  stop_loss : ℚ
  target_1 : ℚ
  target_2 : ℚ
  risk_reward : ℚ
  rsi_value : Option ℚ
  volume_ratio : ℚ
  volume_confirmed : Bool
  support_levels : List ℚ
  resistance_levels : List ℚ
  confirmations : List String
deriving DecidableEq, Repr

/-- NaN-aware `x < c` (`none` is NaN; NaN comparisons are false). -/
def opt_lt (x : Option ℚ) (c : ℚ) : Bool :=
  match x with
  | some v => decide (v < c)
  | none => false

/-- NaN-aware `x > c`. -/
def opt_gt (x : Option ℚ) (c : ℚ) : Bool :=
  match x with
  | some v => decide (c < v)
  | none => false

/-! ## `liquidity_sweep_detector.py` -/

/-- Body of `LiquiditySweepDetector.detect_sweep` before the `log_exceptions`
decorator.  `df.iloc[-1]` / `df.iloc[-2]` are the two `getLast?` reads; both
are guarded by the `len(df) < lookback` early return, so the error branch is
unreachable, as the theorems show. -/
def detect_sweepE (df : List Candle) : Except Unit (Option PatternSignal) :=
  if df.length < SWEEP_LOOKBACK then .ok none
  else
    match df.getLast?, df.dropLast.getLast? with
    | some current_candle, some _prev_candle =>
      let candle_range := current_candle.high - current_candle.low
      let body_size := |current_candle.close - current_candle.open_|
      if candle_range = 0 then .ok none
      else
        let upper_wick := if current_candle.close > current_candle.open_
          then current_candle.high - current_candle.close
          else current_candle.high - current_candle.open_
        let lower_wick := if current_candle.close > current_candle.open_
          then current_candle.open_ - current_candle.low
          else current_candle.close - current_candle.low
        let lower_wick_ratio := lower_wick / candle_range
        let is_bullish_close := current_candle.close > current_candle.open_
        let has_body := body_size / candle_range ≥ SWEEP_REVERSAL_BODY
        let signal1 : Option PatternSignal :=
          if lower_wick_ratio ≥ SWEEP_WICK_RATIO_ ∧ is_bullish_close ∧ has_body then
            let recent_lows := ((pytail df SWEEP_LOOKBACK).dropLast).map Candle.low
            if current_candle.low < (recent_lows.min?).getD 0 then
              some { type := "BUY", pattern_name := "Bullish Liquidity Sweep",
                     pattern_strength := "Strong",
                     sweep_level := some (round2 ((recent_lows.min?).getD 0)),
                     wick_ratio := some (round_to 1 (lower_wick_ratio * 100)) }
            else none
          else none
        let upper_wick_ratio := upper_wick / candle_range
        let is_bearish_close := current_candle.close < current_candle.open_
        if upper_wick_ratio ≥ SWEEP_WICK_RATIO_ ∧ is_bearish_close ∧ has_body ∧ signal1 = none then
          let recent_highs := ((pytail df SWEEP_LOOKBACK).dropLast).map Candle.high
          if (recent_highs.max?).getD 0 < current_candle.high then
            .ok (some { type := "SELL", pattern_name := "Bearish Liquidity Sweep",
                        pattern_strength := "Strong",
                        sweep_level := some (round2 ((recent_highs.max?).getD 0)),
                        wick_ratio := some (round_to 1 (upper_wick_ratio * 100)) })
          else .ok signal1
        else .ok signal1
    | _, _ => .error ()

/-- `detect_sweep` as the scanner calls it (decorated; an exception becomes a
`None` return, indistinguishable from no match). -/
def detect_sweep (df : List Candle) : Option PatternSignal :=
  (log_exceptions (detect_sweepE df)).join

/-- Body of `LiquiditySweepDetector.validate_sweep` before the decorator.
The `signal is None` guard precedes the unguarded `df.iloc[-1]`, which raises
on an empty frame.  The RSI confluence block sits in its own `try/except
pass`; in this model it cannot fault, and a NaN RSI fails both comparisons. -/
def validate_sweepE (df : List Candle) (signal : Option PatternSignal) : Except Unit Bool :=
  match signal with
  | none => .ok false
  | some s =>
    match df.getLast? with
    | none => .error ()
    | some current_candle =>
      if df.length ≥ 20 ∧
          current_candle.volume < (((pytail df 20).map Candle.volume).sum / 20) * 0.8 then
        .ok false
      else
        let candle_range := current_candle.high - current_candle.low
        let weak_reversal :=
          if s.type == "BUY" then
            current_candle.close - current_candle.low < candle_range * 0.4
          else
            current_candle.high - current_candle.close < candle_range * 0.4
        if weak_reversal then .ok false
        else
          let rsi := calculate_rsi (df.map Candle.close) RSI_PERIOD
          match rsi.getLast? with
          | some current_rsi =>
              if s.type == "BUY" ∧ opt_gt current_rsi 70 then .ok false
              else if s.type == "SELL" ∧ opt_lt current_rsi 30 then .ok false
              else .ok true
          | none => .ok true

/-- `validate_sweep` as the scanner calls it (decorated; an exception becomes
`None`, which the caller's `if` treats as invalid). -/
def validate_sweep (df : List Candle) (signal : Option PatternSignal) : Bool :=
  (log_exceptions (validate_sweepE df signal)).getD false

/-! ## `false_breakout_detector.py` -/

/-- Body of `FalseBreakoutDetector.detect_false_breakout` before the
decorator.  Both `iloc` reads are behind the `len(df) < 15` early return. -/
def detect_false_breakoutE (df : List Candle) (support_levels resistance_levels : List ℚ) :
    Except Unit (Option PatternSignal) :=
  if df.length < 15 then .ok none
  else if support_levels = [] ∧ resistance_levels = [] then .ok none
  else
    match df.getLast?, df.dropLast.getLast? with
    | some current_candle, some prev_candle =>
      let avg_volume := ((pytail df 20).map Candle.volume).sum / 20
      let signal1 : Option PatternSignal :=
        match py_min_key (fun x => |x - current_candle.close|) support_levels with
        | none => none
        | some nearest_support =>
          let broke_support := prev_candle.low < nearest_support * 0.997
          let back_above := current_candle.close > nearest_support * 1.002
          let is_bullish := current_candle.close > current_candle.open_
          let had_volume :=
            if df.length ≥ 20 then prev_candle.volume > avg_volume * BREAKOUT_VOLUME_MULTIPLIER
            else True
          if broke_support ∧ back_above ∧ is_bullish ∧ had_volume then
            some { type := "BUY", pattern_name := "Bullish False Breakout",
                   pattern_strength := "Strong",
                   fakeout_level := some (round2 nearest_support) }
          else none
      if signal1 = none then
        match py_min_key (fun x => |x - current_candle.close|) resistance_levels with
        | none => .ok signal1
        | some nearest_resistance =>
          let broke_resistance := prev_candle.high > nearest_resistance * 1.003
          let back_below := current_candle.close < nearest_resistance * 0.998
          let is_bearish := current_candle.close < current_candle.open_
          let had_volume :=
            if df.length ≥ 20 then prev_candle.volume > avg_volume * BREAKOUT_VOLUME_MULTIPLIER
            else True
          if broke_resistance ∧ back_below ∧ is_bearish ∧ had_volume then
            .ok (some { type := "SELL", pattern_name := "Bearish False Breakout",
                        pattern_strength := "Strong",
                        fakeout_level := some (round2 nearest_resistance) })
          else .ok signal1
      else .ok signal1
    | _, _ => .error ()

/-- Decorated `detect_false_breakout`. -/
def detect_false_breakout (df : List Candle) (support_levels resistance_levels : List ℚ) :
    Option PatternSignal :=
  (log_exceptions (detect_false_breakoutE df support_levels resistance_levels)).join

/-- Body of `FalseBreakoutDetector.validate_false_breakout` before the
decorator.  `df.iloc[-1]` raises on an empty frame; `signal['fakeout_level']`
raises `KeyError` when the match carries no such key. -/
def validate_false_breakoutE (df : List Candle) (signal : Option PatternSignal) :
    Except Unit Bool :=
  match signal with
  | none => .ok false
  | some s =>
    match df.getLast? with
    | none => .error ()
    | some current_candle =>
      let candle_range := current_candle.high - current_candle.low
      let body_size := |current_candle.close - current_candle.open_|
      if 0 < candle_range ∧ body_size / candle_range < 0.3 then .ok false
      else
        match s.fakeout_level with
        | none => .error ()
        | some fl =>
          if |current_candle.close - fl| / fl > 0.01 then .ok false
          else .ok true

/-- Decorated `validate_false_breakout`. -/
def validate_false_breakout (df : List Candle) (signal : Option PatternSignal) : Bool :=
  (log_exceptions (validate_false_breakoutE df signal)).getD false

/-! ## `engulfing_detector.py` -/

/-- Body of `EngulfingDetector.detect_engulfing` before the decorator.  Both
`iloc` reads are behind the `len(df) < 3` early return.  Note the source
compares bodies against the literal `1.2`, not `ENGULFING_BODY_RATIO`. -/
def detect_engulfingE (df : List Candle) (support_levels resistance_levels : List ℚ) :
    Except Unit (Option PatternSignal) :=
  if df.length < 3 then .ok none
  else
    match df.getLast?, df.dropLast.getLast? with
    | some current_candle, some prev_candle =>
      let prev_body := |prev_candle.close - prev_candle.open_|
      let current_body := |current_candle.close - current_candle.open_|
      let current_range := current_candle.high - current_candle.low
      if 0 < current_range ∧ current_body / current_range < 0.5 then .ok none
      else
        let current_price := current_candle.close
        let near (level : ℚ) : Bool := decide (|current_price - level| / level ≤ SR_TOUCH_THRESHOLD / 100)
        let signal1 : Option PatternSignal :=
          if prev_candle.close < prev_candle.open_ ∧
             current_candle.close > current_candle.open_ ∧
             current_candle.open_ ≤ prev_candle.close ∧
             current_candle.close ≥ prev_candle.open_ ∧
             current_body > prev_body * 1.2 then
            match support_levels.find? near with
            | some support_level =>
                some { type := "BUY", pattern_name := "Bullish Engulfing",
                       pattern_strength := "Strong",
                       key_level := some (round2 support_level),
                       level_type := some "support" }
            | none => none
          else none
        if prev_candle.close > prev_candle.open_ ∧
           current_candle.close < current_candle.open_ ∧
           current_candle.open_ ≥ prev_candle.close ∧
           current_candle.close ≤ prev_candle.open_ ∧
           current_body > prev_body * 1.2 ∧ signal1 = none then
          match resistance_levels.find? near with
          | some resistance_level =>
              .ok (some { type := "SELL", pattern_name := "Bearish Engulfing",
                          pattern_strength := "Strong",
                          key_level := some (round2 resistance_level),
                          level_type := some "resistance" })
          | none => .ok signal1
        else .ok signal1
    | _, _ => .error ()

/-- Decorated `detect_engulfing`. -/
def detect_engulfing (df : List Candle) (support_levels resistance_levels : List ℚ) :
    Option PatternSignal :=
  (log_exceptions (detect_engulfingE df support_levels resistance_levels)).join

/-- Body of `EngulfingDetector.validate_engulfing` before the decorator. -/
def validate_engulfingE (df : List Candle) (signal : Option PatternSignal) : Except Unit Bool :=
  match signal with
  | none => .ok false
  | some s =>
    match df.getLast? with
    | none => .error ()
    | some current_candle =>
      if df.length ≥ 20 ∧
          current_candle.volume < (((pytail df 20).map Candle.volume).sum / 20) * 0.9 then
        .ok false
      else
        match s.key_level with
        | none => .error ()
        | some kl =>
          if |current_candle.close - kl| / kl > 0.008 then .ok false
          else .ok true

/-- Decorated `validate_engulfing`. -/
def validate_engulfing (df : List Candle) (signal : Option PatternSignal) : Bool :=
  (log_exceptions (validate_engulfingE df signal)).getD false

/-! ## `mid_signal_scanner.py` -/

/-- The risk:reward ratio exactly as `_build_signal` computes it (lines
147-159): stop and first target are fixed percentages of the entry, risk and
reward their absolute distances, and `rr = reward / risk` with `0` when the
risk is not positive. -/
def rr_ratio_of (entry_price : ℚ) (signal_type : String) : ℚ :=
  let stop_loss := if signal_type == "BUY"
    then entry_price * (1 - STOP_LOSS_PERCENTAGE / 100)
    else entry_price * (1 + STOP_LOSS_PERCENTAGE / 100)
  let target_1 := if signal_type == "BUY"
    then entry_price * (1 + TARGET_PERCENTAGE_1 / 100)
    else entry_price * (1 - TARGET_PERCENTAGE_1 / 100)
  let risk := |entry_price - stop_loss|
  let reward := |target_1 - entry_price|
  if risk > 0 then reward / risk else 0

/-- Body of `MidStrategyScanner._build_signal` before its own `try/except`
(which returns `None` on any exception).  The only regular `None` return is
the minimum-RR gate, which is also the only place the `low_rr_ratio`
diagnostic counter increments: `build_signalE ... = .ok none` holds exactly
when the gate rejected (and the counter moved). -/
def build_signalE (df : List Candle) (symbol : String) (pattern_signal : PatternSignal)
    (support_levels resistance_levels : List ℚ) : Except Unit (Option Signal) :=
  match df.getLast? with
  | none => .error ()
  | some current_candle =>
    let entry_price := current_candle.close
    let signal_type := pattern_signal.type
    let stop_loss := if signal_type == "BUY"
      then entry_price * (1 - STOP_LOSS_PERCENTAGE / 100)
      else entry_price * (1 + STOP_LOSS_PERCENTAGE / 100)
    let target_1 := if signal_type == "BUY"
      then entry_price * (1 + TARGET_PERCENTAGE_1 / 100)
      else entry_price * (1 - TARGET_PERCENTAGE_1 / 100)
    let target_2 := if signal_type == "BUY"
      then entry_price * (1 + TARGET_PERCENTAGE_2 / 100)
      else entry_price * (1 - TARGET_PERCENTAGE_2 / 100)
    let rr_ratio := rr_ratio_of entry_price signal_type
    if rr_ratio < MIN_RISK_REWARD_RATIO_ then .ok none
    else
      let vc := check_volume_confirmation df VOLUME_MA_PERIOD
      let rsi_values := calculate_rsi (df.map Candle.close) RSI_PERIOD
      let current_rsi : Option ℚ :=
        if 0 < rsi_values.length then (rsi_values.getLast?).getD none else some 50
      let confirmations : List String :=
        (if vc.1 then ["Volume"] else []) ++
        (if signal_type == "BUY" ∧ opt_lt current_rsi 45 then ["RSI"]
         else if signal_type == "SELL" ∧ opt_gt current_rsi 55 then ["RSI"]
         else [])
      .ok (some
        { symbol := symbol.replace ".NS" ""
          signal_type := signal_type
          pattern_name := pattern_signal.pattern_name
          pattern_strength := pattern_signal.pattern_strength
          entry_price := round2 entry_price
          stop_loss := round2 stop_loss
          target_1 := round2 target_1
          target_2 := round2 target_2
          risk_reward := round2 rr_ratio
          rsi_value := current_rsi.map round2
          volume_ratio := round2 vc.2
          volume_confirmed := vc.1
          support_levels := (support_levels.take 3).map round2
          resistance_levels := (resistance_levels.take 3).map round2
          confirmations := confirmations })

/-- `_build_signal` with its `try/except` folded in. -/
def build_signal (df : List Candle) (symbol : String) (pattern_signal : PatternSignal)
    (support_levels resistance_levels : List ℚ) : Option Signal :=
  (log_exceptions (build_signalE df symbol pattern_signal support_levels resistance_levels)).join

/-- Strategy 1 of `scan_stock` (lines 78-93): detect a sweep, validate it,
build; any failure leaves the stage without a signal and the scan continues. -/
def sweep_stage (df : List Candle) (symbol : String)
    (support_levels resistance_levels : List ℚ) : Option Signal :=
  match detect_sweep df with
  | none => none
  | some m =>
    if validate_sweep df (some m)
    then build_signal df symbol m support_levels resistance_levels
    else none

/-- Strategy 2 of `scan_stock` (lines 95-110). -/
def fb_stage (df : List Candle) (symbol : String)
    (support_levels resistance_levels : List ℚ) : Option Signal :=
  match detect_false_breakout df support_levels resistance_levels with
  | none => none
  | some m =>
    if validate_false_breakout df (some m)
    then build_signal df symbol m support_levels resistance_levels
    else none

/-- Strategy 3 of `scan_stock` (lines 112-127). -/
def eng_stage (df : List Candle) (symbol : String)
    (support_levels resistance_levels : List ℚ) : Option Signal :=
  match detect_engulfing df support_levels resistance_levels with
  | none => none
  | some m =>
    if validate_engulfing df (some m)
    then build_signal df symbol m support_levels resistance_levels
    else none

/-- `MidStrategyScanner.scan_stock` from the point where the fetched frame is
at hand (the fetch itself is external I/O; a missing frame returns `None`
before this logic).  Strategies run in priority order and the scan returns at
the first one that produces a complete signal. -/
def scan_stock (symbol : String) (df : List Candle) : Option Signal :=
  if df.length < 30 then none
  else
    let levels := calculate_support_resistance df
    match sweep_stage df symbol levels.1 levels.2 with
    | some s => some s
    | none =>
      match fb_stage df symbol levels.1 levels.2 with
      | some s => some s
      | none => eng_stage df symbol levels.1 levels.2

/-! ## Concrete candle series used by the witnesses -/

/-- Alternating closes (100 on even indices, 99 on odd ones). -/
def closeAlt (i : ℕ) : ℚ := if i % 2 = 0 then 100 else 99

/-- A 35-candle series whose last candle is simultaneously a bullish
liquidity sweep (low 97 under the preceding 19-candle minimum 98.5, long
lower wick, solid body) and a bullish false breakout of the support level
100 (previous candle dipped to 99.5 on double volume, current close 100.5). -/
def df35 : List Candle :=
  ((List.range 15).map fun i => ⟨100, 101, 98, closeAlt i, 1000⟩) ++
  ((List.range 18).map fun i => ⟨100, 100.8, 98.5, closeAlt (15 + i), 1000⟩) ++
  [⟨100, 100.8, 99.5, 99, 2000⟩, ⟨99, 100.6, 97, 100.5, 1000⟩]

/-- `df35` with the final candle's volume cut to 500: the sweep still
detects, but its validation now fails the 0.8x-average-volume check, so the
scan falls through to the false-breakout stage. -/
def df35b : List Candle := df35.dropLast ++ [⟨99, 100.6, 97, 100.5, 500⟩]

/-- A 20-candle series whose last candle sweeps under the flat prior lows at
100 and closes bullish. -/
def df20 : List Candle :=
  ((List.range 19).map fun _ => ⟨100, 101, 100, 100.5, 1000⟩) ++
  [⟨99.8, 100.5, 98.9, 100.4, 1000⟩]

/-- A single candle closing exactly at 100 (the entry price of the spec's RR
scenario). -/
def df100 : List Candle := [⟨99, 101, 98, 100, 1000⟩]

/-- A minimal BUY pattern match fed to the synthesizer. -/
def m0 : PatternSignal := { type := "BUY", pattern_name := "P", pattern_strength := "Strong" }

/-- The sweep match the detector produces on `df35` (and `df35b`). -/
def m35 : PatternSignal :=
  { type := "BUY", pattern_name := "Bullish Liquidity Sweep", pattern_strength := "Strong",
    sweep_level := some 98.5, wick_ratio := some 55.6 }

/-- The false-breakout match the detector produces on `df35` (and `df35b`). -/
def m35f : PatternSignal :=
  { type := "BUY", pattern_name := "Bullish False Breakout", pattern_strength := "Strong",
    fakeout_level := some 100 }

/-- The sweep-derived trade signal the scanner emits on `df35`. -/
def s35 : Signal :=
  { symbol := "X", signal_type := "BUY", pattern_name := "Bullish Liquidity Sweep",
    pattern_strength := "Strong", entry_price := 100.5, stop_loss := 98.99,
    target_1 := 102.51, target_2 := 104.02, risk_reward := 1.33,
    rsi_value := some 51.72, volume_ratio := 0.95, volume_confirmed := false,
    support_levels := [100, 97], resistance_levels := [100.8], confirmations := [] }

/-- The breakout-derived trade signal the scanner emits on `df35b` after the
sweep validation fails. -/
def s35b : Signal :=
  { symbol := "X", signal_type := "BUY", pattern_name := "Bullish False Breakout",
    pattern_strength := "Strong", entry_price := 100.5, stop_loss := 98.99,
    target_1 := 102.51, target_2 := 104.02, risk_reward := 1.33,
    rsi_value := some 51.72, volume_ratio := 0.49, volume_confirmed := false,
    support_levels := [100, 97], resistance_levels := [100.8], confirmations := [] }

/-! ## Helper lemmas -/

/-- A nonempty list has a last element. -/
theorem exists_getLast?_of_ne_nil {l : List α} (h : l ≠ []) : ∃ a, l.getLast? = some a := by
  cases hl : l.getLast? with
  | none => exact absurd (List.getLast?_eq_none_iff.mp hl) h
  | some a => exact ⟨a, rfl⟩

/-- Dropping strictly fewer elements than the length leaves the last element
unchanged. -/
theorem getLast?_drop_of_lt {l : List α} {k : ℕ} (h : k < l.length) :
    (l.drop k).getLast? = l.getLast? := by
  conv_rhs => rw [← List.take_append_drop k l]
  rw [List.getLast?_append]
  have hne : l.drop k ≠ [] := by
    intro hnil
    have := List.length_drop k l
    rw [hnil] at this
    simp at this
    omega
  obtain ⟨a, ha⟩ := exists_getLast?_of_ne_nil hne
  rw [ha]
  rfl

/-- The last close of the lookback window is the last close of the frame. -/
theorem pytail_last_close {df : List Candle} {c : Candle} {n : ℕ} (hn : 0 < n)
    (h : df.getLast? = some c) :
    (((pytail df n).map Candle.close).getLast?).getD 0 = c.close := by
  have hne : df ≠ [] := by
    intro hnil
    rw [hnil] at h
    simp at h
  rw [List.getLast?_map, pytail, getLast?_drop_of_lt, h]
  · rfl
  · have : 0 < df.length := List.length_pos.mpr hne
    omega

/-! ## Claims -/

/-- C10: every detector returns no match on a series shorter than its minimum
history: `detect_sweep` below 20 candles, `detect_false_breakout` below 15,
`detect_engulfing` below 3. -/
theorem c10_detector_min_history (df : List Candle) (sl rl : List ℚ) :
    (df.length < 20 → detect_sweep df = none) ∧
    (df.length < 15 → detect_false_breakout df sl rl = none) ∧
    (df.length < 3 → detect_engulfing df sl rl = none) := by
  refine ⟨fun h => ?_, fun h => ?_, fun h => ?_⟩
  · simp [detect_sweep, detect_sweepE, log_exceptions, SWEEP_LOOKBACK, h]
  · simp [detect_false_breakout, detect_false_breakoutE, log_exceptions, h]
  · simp [detect_engulfing, detect_engulfingE, log_exceptions, h]

/-- Witness for C10 at the empty series. -/
theorem c10_detector_min_history_witness :
    detect_sweep [] = none ∧ detect_false_breakout [] [] [] = none ∧
    detect_engulfing [] [] [] = none := by
  have h := c10_detector_min_history [] [] []
  exact ⟨h.1 (by decide), h.2.1 (by decide), h.2.2 (by decide)⟩

/-- C9: no detector raises past its boundary.  The three `detect` bodies
cannot fault at all (their length guards precede every index access), and
when a `validate` body faults (empty frame, missing match key) the
`log_exceptions` boundary converts the fault into the invalid outcome;
a non-faulting body's verdict passes through unchanged. -/
theorem c9_detector_boundary (df : List Candle) (sl rl : List ℚ) (sig : Option PatternSignal) :
    (∀ e, detect_sweepE df ≠ Except.error e) ∧
    (∀ e, detect_false_breakoutE df sl rl ≠ Except.error e) ∧
    (∀ e, detect_engulfingE df sl rl ≠ Except.error e) ∧
    (∀ e, validate_sweepE df sig = Except.error e → validate_sweep df sig = false) ∧
    (∀ b, validate_sweepE df sig = Except.ok b → validate_sweep df sig = b) ∧
    (∀ e, validate_false_breakoutE df sig = Except.error e → validate_false_breakout df sig = false) ∧
    (∀ b, validate_false_breakoutE df sig = Except.ok b → validate_false_breakout df sig = b) ∧
    (∀ e, validate_engulfingE df sig = Except.error e → validate_engulfing df sig = false) ∧
    (∀ b, validate_engulfingE df sig = Except.ok b → validate_engulfing df sig = b) := by
  have hlast : ∀ n, n ≤ df.length → 2 ≤ n →
      (∃ a, df.getLast? = some a) ∧ ∃ b, df.dropLast.getLast? = some b := by
    intro n hn h2
    constructor
    · refine exists_getLast?_of_ne_nil fun hnil => ?_
      rw [hnil] at hn
      simp at hn
      omega
    · refine exists_getLast?_of_ne_nil fun hnil => ?_
      have := congrArg List.length hnil
      rw [List.length_dropLast] at this
      simp at this
      omega
  refine ⟨fun e he => ?_, fun e he => ?_, fun e he => ?_,
          fun e he => by simp [validate_sweep, he, log_exceptions],
          fun b hb => by simp [validate_sweep, hb, log_exceptions],
          fun e he => by simp [validate_false_breakout, he, log_exceptions],
          fun b hb => by simp [validate_false_breakout, hb, log_exceptions],
          fun e he => by simp [validate_engulfing, he, log_exceptions],
          fun b hb => by simp [validate_engulfing, hb, log_exceptions]⟩
  · by_cases h : df.length < SWEEP_LOOKBACK
    · simp [detect_sweepE, h] at he
    · obtain ⟨⟨a, ha⟩, ⟨b, hb⟩⟩ := hlast SWEEP_LOOKBACK (le_of_not_lt h) (by norm_num [SWEEP_LOOKBACK])
      simp only [detect_sweepE, ha, hb, if_neg h] at he
      repeat' (first | exact Except.noConfusion he | split at he)
  · by_cases h : df.length < 15
    · simp [detect_false_breakoutE, h] at he
    · obtain ⟨⟨a, ha⟩, ⟨b, hb⟩⟩ := hlast 15 (le_of_not_lt h) (by norm_num)
      simp only [detect_false_breakoutE, ha, hb, if_neg h] at he
      repeat' (first | exact Except.noConfusion he | split at he)
  · by_cases h : df.length < 3
    · simp [detect_engulfingE, h] at he
    · obtain ⟨⟨a, ha⟩, ⟨b, hb⟩⟩ := hlast 3 (le_of_not_lt h) (by norm_num)
      simp only [detect_engulfingE, ha, hb, if_neg h] at he
      repeat' (first | exact Except.noConfusion he | split at he)

/-- Witness for C9: on the empty frame all three validator bodies raise
(`df.iloc[-1]`), and the decorated validators return the invalid outcome. -/
theorem c9_detector_boundary_witness :
    validate_sweep [] (some m0) = false ∧ validate_false_breakout [] (some m0) = false ∧
    validate_engulfing [] (some m0) = false := by
  have h := c9_detector_boundary [] [] [] (some m0)
  exact ⟨h.2.2.2.1 () rfl, h.2.2.2.2.2.1 () rfl, h.2.2.2.2.2.2.2.1 () rfl⟩

/-- `STOP_LOSS_PERCENTAGE` as a plain fraction. -/
theorem SLP_eq : STOP_LOSS_PERCENTAGE = 3 / 2 := by norm_num [STOP_LOSS_PERCENTAGE]

/-- `TARGET_PERCENTAGE_1` as a plain fraction. -/
theorem TP1_eq : TARGET_PERCENTAGE_1 = 2 := by norm_num [TARGET_PERCENTAGE_1]

/-- `MIN_RISK_REWARD_RATIO_` as a plain fraction. -/
theorem MINRR_eq : MIN_RISK_REWARD_RATIO_ = 6 / 5 := by norm_num [MIN_RISK_REWARD_RATIO_]

/-- For a positive entry the synthesizer's risk:reward ratio is the constant
`TARGET_PERCENTAGE_1 / STOP_LOSS_PERCENTAGE`, whatever the direction. -/
theorem rr_ratio_of_pos (e : ℚ) (t : String) (h : 0 < e) :
    rr_ratio_of e t = TARGET_PERCENTAGE_1 / STOP_LOSS_PERCENTAGE := by
  have h2 : (0 : ℚ) < e * (3 / 200) := mul_pos h (by norm_num)
  have h3 : (0 : ℚ) < e * (1 / 50) := mul_pos h (by norm_num)
  simp only [rr_ratio_of, SLP_eq, TP1_eq]
  by_cases ht : (t == "BUY") = true
  · rw [if_pos ht, if_pos ht,
      show e - e * (1 - 3 / 2 / 100) = e * (3 / 200) by ring,
      show e * (1 + 2 / 100) - e = e * (1 / 50) by ring,
      abs_of_pos h2, abs_of_pos h3, if_pos h2,
      mul_div_mul_left _ _ (ne_of_gt h)]
    norm_num
  · rw [if_neg ht, if_neg ht,
      show e - e * (1 + 3 / 2 / 100) = -(e * (3 / 200)) by ring,
      show e * (1 - 2 / 100) - e = -(e * (1 / 50)) by ring,
      abs_neg, abs_neg, abs_of_pos h2, abs_of_pos h3, if_pos h2,
      mul_div_mul_left _ _ (ne_of_gt h)]
    norm_num

/-- C2: for every candle series with a positive last close (the entry) and
every pattern direction, the risk:reward ratio `_build_signal` computes is
the constant `TARGET_PERCENTAGE_1 / STOP_LOSS_PERCENTAGE`, independent of the
entry price and the direction; with the default configuration (2.0% target,
1.5% stop, minimum 1.2) the gate never fires, so synthesis never returns the
gate's `None` (`.ok none`, the only place `low_rr_ratio` increments) and
always yields a signal. -/
theorem c2_rr_gate_vacuous (entry : ℚ) (ty : String) (df : List Candle) (sym : String)
    (ps : PatternSignal) (sl rl : List ℚ) (cur : Candle)
    (hentry : 0 < entry) (hdf : df.getLast? = some cur) (hclose : 0 < cur.close) :
    rr_ratio_of entry ty = TARGET_PERCENTAGE_1 / STOP_LOSS_PERCENTAGE ∧
    ¬ rr_ratio_of entry ty < MIN_RISK_REWARD_RATIO_ ∧
    build_signalE df sym ps sl rl ≠ Except.ok none ∧
    ∃ s, build_signalE df sym ps sl rl = Except.ok (some s) := by
  have hconst := rr_ratio_of_pos entry ty hentry
  have hcur := rr_ratio_of_pos cur.close ps.type hclose
  have hgate : ¬ rr_ratio_of cur.close ps.type < MIN_RISK_REWARD_RATIO_ := by
    rw [hcur, TP1_eq, SLP_eq, MINRR_eq]
    norm_num
  refine ⟨hconst, ?_, ?_, ?_⟩
  · rw [hconst, TP1_eq, SLP_eq, MINRR_eq]
    norm_num
  · simp only [build_signalE, hdf]
    rw [if_neg hgate]
    simp
  · simp only [build_signalE, hdf]
    rw [if_neg hgate]
    exact ⟨_, rfl⟩

/-- Witness for C2 at entry 100 on the one-candle frame `df100`. -/
theorem c2_rr_gate_vacuous_witness :
    rr_ratio_of 100 "BUY" = TARGET_PERCENTAGE_1 / STOP_LOSS_PERCENTAGE ∧
    ¬ rr_ratio_of 100 "BUY" < MIN_RISK_REWARD_RATIO_ ∧
    build_signalE df100 "X" m0 [] [] ≠ Except.ok none ∧
    ∃ s, build_signalE df100 "X" m0 [] [] = Except.ok (some s) :=
  c2_rr_gate_vacuous 100 "BUY" df100 "X" m0 [] [] ⟨99, 101, 98, 100, 1000⟩
    (by norm_num) (by with_unfolding_all rfl) (by norm_num)

/-- Counterexample to C1: at entry 100 (hence stop 98.5 and target one 102 —
the exact scenario the claim says is suppressed) the synthesizer accepts the
signal: the risk:reward is 2/1.5 = 4/3 ≥ 1.2, not 1.0. -/
theorem c1_rr_counterexample :
    build_signal df100 "X" m0 [] [] =
      some { symbol := "X", signal_type := "BUY", pattern_name := "P",
             pattern_strength := "Strong", entry_price := 100, stop_loss := 98.5,
             target_1 := 102, target_2 := 103.5, risk_reward := 1.33,
             rsi_value := none, volume_ratio := 1, volume_confirmed := false,
             support_levels := [], resistance_levels := [], confirmations := [] } := by
  with_unfolding_all rfl

/-- C1 as amended: with minimum RR 1.2, a BUY synthesis at entry 100 computes
stop 98.5 and target one 102 and is accepted (risk:reward 4/3, reported
rounded as 1.33); targets 102.1 and 102.5 cannot arise at entry 100, because
the first target is always `entry * 1.02`. -/
theorem c1_rr_gate_amended (df : List Candle) (sym : String) (ps : PatternSignal)
    (sl rl : List ℚ) (cur : Candle)
    (hdf : df.getLast? = some cur) (hclose : cur.close = 100) (hty : ps.type = "BUY") :
    ∃ s, build_signalE df sym ps sl rl = Except.ok (some s) ∧
      s.entry_price = 100 ∧ s.stop_loss = 98.5 ∧ s.target_1 = 102 ∧
      s.target_2 = 103.5 ∧ s.risk_reward = 1.33 := by
  have hgate : ¬ rr_ratio_of (100 : ℚ) "BUY" < MIN_RISK_REWARD_RATIO_ :=
    of_decide_eq_true (by with_unfolding_all rfl)
  simp only [build_signalE, hdf, hclose, hty]
  rw [if_neg hgate]
  refine ⟨_, rfl, ?_, ?_, ?_, ?_, ?_⟩ <;> with_unfolding_all rfl

/-- Witness for the amended C1 on the one-candle frame `df100`. -/
theorem c1_rr_gate_amended_witness :
    ∃ s, build_signalE df100 "X" m0 [] [] = Except.ok (some s) ∧
      s.entry_price = 100 ∧ s.stop_loss = 98.5 ∧ s.target_1 = 102 ∧
      s.target_2 = 103.5 ∧ s.risk_reward = 1.33 :=
  c1_rr_gate_amended df100 "X" m0 [] [] ⟨99, 101, 98, 100, 1000⟩ (by with_unfolding_all rfl) rfl rfl

/-- A strictly increasing 15-close series. -/
def close15 : List ℚ := [1, 2, 3, 4, 5, 6, 7, 8, 9, 10, 11, 12, 13, 14, 15]

/-- C8: an all-gains close series of length at least `period + 1` (strictly
increasing closes) yields RSI exactly 100 at the last position — the zero
average loss makes `rs` infinite and the formula saturates, with no
exception. -/
theorem c8_rsi_all_gains (close : List ℚ) (period : ℕ)
    (hp : 0 < period) (hlen : period + 1 ≤ close.length)
    (hmono : List.Chain' (· < ·) close) :
    (calculate_rsi close period).getLast? = some (some 100) := by
  have hne : period ≠ 0 := hp.ne'
  set n := close.length with hn
  have hA : ¬ (n - 1 + 1 < period) := by omega
  have hwin : ∀ j, j < period →
      0 < gain_raw close (n - 1 + 1 - period + j) ∧
      loss_raw close (n - 1 + 1 - period + j) = 0 := by
    intro j hj
    obtain ⟨k, hk⟩ : ∃ k, n - 1 + 1 - period + j = k + 1 :=
      ⟨n - 1 + 1 - period + j - 1, by omega⟩
    have hkn : k + 1 < n := by omega
    have hc := List.chain'_iff_get.mp hmono k (by omega)
    simp only [List.get_eq_getElem] at hc
    have hdelta : pydelta close (k + 1) = some (close.getD (k + 1) 0 - close.getD k 0) := by
      unfold pydelta
      rw [if_neg]
      · simp
      · push_neg
        exact ⟨Nat.succ_ne_zero k, by omega⟩
    have hpos : 0 < close.getD (k + 1) 0 - close.getD k 0 := by
      rw [List.getD_eq_getElem _ _ (by omega : k + 1 < close.length),
          List.getD_eq_getElem _ _ (by omega : k < close.length)]
      exact sub_pos.mpr hc
    rw [hk]
    constructor
    · simp only [gain_raw, hdelta]
      rw [if_pos hpos]
      exact hpos
    · simp only [loss_raw, hdelta]
      rw [if_neg (asymm hpos)]
  have hL : roll_mean (loss_raw close) period (n - 1) = some 0 := by
    simp only [roll_mean, if_neg hA]
    have hz : ∀ x ∈ (List.range period).map
        (fun j => loss_raw close (n - 1 + 1 - period + j)), x = 0 := by
      intro x hx
      simp only [List.mem_map, List.mem_range] at hx
      obtain ⟨j, hj, rfl⟩ := hx
      exact (hwin j hj).2
    rw [List.sum_eq_zero hz, zero_div]
  set G : ℚ :=
    (((List.range period).map fun j => gain_raw close (n - 1 + 1 - period + j)).sum) / period
    with hGdef
  have hG : roll_mean (gain_raw close) period (n - 1) = some G := by
    simp only [roll_mean, if_neg hA]
  have hGpos : 0 < G := by
    rw [hGdef]
    apply div_pos
    · apply List.sum_pos
      · intro x hx
        simp only [List.mem_map, List.mem_range] at hx
        obtain ⟨j, hj, rfl⟩ := hx
        exact (hwin j hj).1
      · simp [hne]
    · exact_mod_cast hp
  have hlast : (calculate_rsi close period).getLast? = some (rsi_at close period (n - 1)) := by
    simp only [calculate_rsi, if_neg hne]
    rw [List.getLast?_eq_getElem?]
    rw [List.length_map, List.length_range, List.getElem?_map,
        List.getElem?_range (show n - 1 < n by omega)]
    rfl
  rw [hlast]
  have : rsi_at close period (n - 1) = some 100 := by
    simp only [rsi_at, hG, hL]
    rw [if_pos trivial, if_neg (ne_of_gt hGpos)]
  rw [this]

/-- Witness for C8 on the strictly increasing `close15` with period 14. -/
theorem c8_rsi_all_gains_witness : (calculate_rsi close15 14).getLast? = some (some 100) :=
  c8_rsi_all_gains close15 14 (by norm_num) (of_decide_eq_true (by with_unfolding_all rfl))
    (by simp only [close15, List.chain'_cons, List.chain'_singleton]; norm_num)

/-- Counterexample to C3: on the all-gains series `close15` with period 14,
the position with insufficient history carries NaN (modelled `none`), not 50,
and the zero-average-loss position carries 100, not 50. -/
theorem c3_rsi_counterexample :
    (calculate_rsi close15 14).getD 0 (some 0) = none ∧
    (calculate_rsi close15 14).getD 14 (some 0) = some 100 ∧
    (none : Option ℚ) ≠ some 50 ∧ (some (100 : ℚ)) ≠ some 50 := by
  refine ⟨?_, ?_, by simp, by simp⟩
  · with_unfolding_all rfl
  · with_unfolding_all rfl

/-- C3 as amended: for a positive period, `calculate_rsi` carries NaN
(modelled `none`), never the neutral 50, at every position with fewer than
`period` values of history; at a position whose average loss is zero it
carries 100 when the average gain is nonzero and NaN when both averages are
zero.  (The 50s appear only in the function's exception fallback, e.g. for a
zero period.) -/
theorem c3_rsi_amended (close : List ℚ) (period i : ℕ) (hp : 0 < period) :
    (i + 1 < period → rsi_at close period i = none) ∧
    (∀ g, roll_mean (gain_raw close) period i = some g →
        roll_mean (loss_raw close) period i = some 0 →
        rsi_at close period i = if g = 0 then none else some 100) ∧
    (i < close.length → (calculate_rsi close period).getD i (some 0) = rsi_at close period i) := by
  refine ⟨fun h => ?_, fun g hg hl => ?_, fun h => ?_⟩
  · simp [rsi_at, roll_mean, h]
  · simp only [rsi_at, hg, hl]
    rw [if_pos trivial]
  · simp only [calculate_rsi, if_neg hp.ne']
    rw [List.getD_eq_getElem?_getD, List.getElem?_map, List.getElem?_range h]
    rfl

/-- Witness for the amended C3 on `close15`: NaN below the window, 100 at the
all-gains tail. -/
theorem c3_rsi_amended_witness :
    rsi_at close15 14 0 = none ∧
    rsi_at close15 14 14 = (if (1 : ℚ) = 0 then none else some 100) ∧
    (calculate_rsi close15 14).getD 14 (some 0) = rsi_at close15 14 14 :=
  ⟨(c3_rsi_amended close15 14 0 (by norm_num)).1 (by norm_num),
   (c3_rsi_amended close15 14 14 (by norm_num)).2.1 1
     (by with_unfolding_all rfl)
     (by with_unfolding_all rfl),
   (c3_rsi_amended close15 14 14 (by norm_num)).2.2
     (of_decide_eq_true (by with_unfolding_all rfl))⟩

set_option maxHeartbeats 1000000 in
/-- C6: on any nonempty frame the level calculator returns supports strictly
below the current (last) close and resistances strictly above it, each list
holding at most 5 entries ordered nearest-first (supports descending,
resistances ascending), and — being a pure function — identical output on
identical input. -/
theorem c6_support_resistance (df : List Candle) (cur : Candle)
    (hdf : df.getLast? = some cur) :
    (∀ s ∈ (calculate_support_resistance df).1, s < cur.close) ∧
    (∀ r ∈ (calculate_support_resistance df).2, cur.close < r) ∧
    (calculate_support_resistance df).1.length ≤ 5 ∧
    (calculate_support_resistance df).2.length ≤ 5 ∧
    List.Sorted (· ≥ ·) (calculate_support_resistance df).1 ∧
    List.Sorted (· ≤ ·) (calculate_support_resistance df).2 ∧
    calculate_support_resistance df = calculate_support_resistance df := by
  have hmap : (df.map Candle.close).getLast? = some cur.close := by
    rw [List.getLast?_map, hdf]
    rfl
  have hprice := pytail_last_close (n := SR_LOOKBACK_DAYS)
    (by norm_num [SR_LOOKBACK_DAYS]) hdf
  have hcalc : calculate_support_resistance df =
      ((((sr_raw_levels df).1.filter fun s => s < cur.close).insertionSort (· ≥ ·)).take 5,
       (((sr_raw_levels df).2.filter fun r => cur.close < r).insertionSort (· ≤ ·)).take 5) := by
    simp only [calculate_support_resistance, hmap, hprice]
  rw [hcalc]
  refine ⟨?_, ?_, List.length_take_le 5 _, List.length_take_le 5 _, ?_, ?_, rfl⟩
  · intro s hs
    have h1 := List.mem_of_mem_take hs
    rw [List.mem_insertionSort] at h1
    have h2 := (List.mem_filter.mp h1).2
    simpa using h2
  · intro r hr
    have h1 := List.mem_of_mem_take hr
    rw [List.mem_insertionSort] at h1
    have h2 := (List.mem_filter.mp h1).2
    simpa using h2
  · exact List.Pairwise.sublist (List.take_sublist _ _) (List.sorted_insertionSort _ _)
  · exact List.Pairwise.sublist (List.take_sublist _ _) (List.sorted_insertionSort _ _)

set_option maxRecDepth 400000 in
/-- Witness for C6 on the 20-candle frame `df20`. -/
theorem c6_support_resistance_witness :
    (∀ s ∈ (calculate_support_resistance df20).1, s < 100.4) ∧
    (∀ r ∈ (calculate_support_resistance df20).2, 100.4 < r) ∧
    (calculate_support_resistance df20).1.length ≤ 5 ∧
    (calculate_support_resistance df20).2.length ≤ 5 ∧
    List.Sorted (· ≥ ·) (calculate_support_resistance df20).1 ∧
    List.Sorted (· ≤ ·) (calculate_support_resistance df20).2 ∧
    calculate_support_resistance df20 = calculate_support_resistance df20 :=
  c6_support_resistance df20 ⟨99.8, 100.5, 98.9, 100.4, 1000⟩
    (by with_unfolding_all rfl)

/-- C7: a series of at least 20 candles whose last candle closes bullish with
a lower wick of at least half its range, a body of at least 35% of its range,
and a low strictly under the minimum low of the preceding 19 candles, makes
`detect_sweep` return the BUY match whose `sweep_level` is that minimum low
rounded to 2 decimals. -/
theorem c7_sweep_bullish (df : List Candle) (cur : Candle) (mn : ℚ)
    (hlen : SWEEP_LOOKBACK ≤ df.length)
    (hcur : df.getLast? = some cur)
    (hbull : cur.close > cur.open_)
    (hwick : (cur.open_ - cur.low) / (cur.high - cur.low) ≥ SWEEP_WICK_RATIO_)
    (hbody : |cur.close - cur.open_| / (cur.high - cur.low) ≥ SWEEP_REVERSAL_BODY)
    (hmin : (((pytail df SWEEP_LOOKBACK).dropLast).map Candle.low).min? = some mn)
    (hswept : cur.low < mn) :
    detect_sweep df = some
      { type := "BUY", pattern_name := "Bullish Liquidity Sweep", pattern_strength := "Strong",
        sweep_level := some (round2 mn),
        wick_ratio := some (round_to 1 ((cur.open_ - cur.low) / (cur.high - cur.low) * 100)) } := by
  have hbody2 : 0 < cur.close - cur.open_ := sub_pos.mpr hbull
  have hsr : (0 : ℚ) < SWEEP_REVERSAL_BODY := by norm_num [SWEEP_REVERSAL_BODY]
  have hrange : 0 < cur.high - cur.low := by
    by_contra hr
    push_neg at hr
    have habs : 0 < |cur.close - cur.open_| := abs_pos.mpr (ne_of_gt hbody2)
    rcases lt_or_eq_of_le hr with h0 | h0
    · have hneg : |cur.close - cur.open_| / (cur.high - cur.low) < 0 :=
        div_neg_of_pos_of_neg habs h0
      linarith
    · rw [h0, div_zero] at hbody
      linarith
  obtain ⟨p, hp⟩ := exists_getLast?_of_ne_nil (l := df.dropLast) (by
    intro hnil
    have hlen2 := congrArg List.length hnil
    rw [List.length_dropLast] at hlen2
    simp only [List.length_nil] at hlen2
    simp only [SWEEP_LOOKBACK] at hlen
    omega)
  have hnotlt : ¬ df.length < SWEEP_LOOKBACK := not_lt.mpr hlen
  simp only [detect_sweep, detect_sweepE, log_exceptions, hcur, hp, if_neg hnotlt,
    if_neg hrange.ne', Option.join]
  rw [List.map_dropLast] at hmin
  simp [hbull, hwick, hbody, hmin, hswept, lt_asymm hbull]

set_option maxRecDepth 400000 in
/-- Witness for C7 on `df20`: sweep under the flat prior lows at 100. -/
theorem c7_sweep_bullish_witness :
    detect_sweep df20 = some
      { type := "BUY", pattern_name := "Bullish Liquidity Sweep", pattern_strength := "Strong",
        sweep_level := some 100, wick_ratio := some 56.2 } := by
  have h := c7_sweep_bullish df20 ⟨99.8, 100.5, 98.9, 100.4, 1000⟩ 100
    (of_decide_eq_true (by with_unfolding_all rfl))
    (by with_unfolding_all rfl)
    (of_decide_eq_true (by with_unfolding_all rfl))
    (of_decide_eq_true (by with_unfolding_all rfl))
    (of_decide_eq_true (by with_unfolding_all rfl))
    (by with_unfolding_all rfl)
    (of_decide_eq_true (by with_unfolding_all rfl))
  rw [h]
  with_unfolding_all rfl

/-- C5: `scan_stock` falls through rather than abandoning the symbol: a
detected match whose validation fails or whose synthesis is rejected leaves
its stage without a signal (conjuncts 1-2); a signal-less sweep stage sends
the scan on to the false-breakout and then engulfing stages (conjunct 3); and
the scan returns early exactly when some stage produced a complete built
signal (conjunct 4). -/
theorem c5_scan_fallthrough (df : List Candle) (sym : String) (m mf : PatternSignal)
    (h30 : 30 ≤ df.length) :
    (detect_sweep df = some m →
      (validate_sweep df (some m) = false ∨
        build_signal df sym m (calculate_support_resistance df).1
          (calculate_support_resistance df).2 = none) →
      sweep_stage df sym (calculate_support_resistance df).1
        (calculate_support_resistance df).2 = none) ∧
    (detect_false_breakout df (calculate_support_resistance df).1
        (calculate_support_resistance df).2 = some mf →
      (validate_false_breakout df (some mf) = false ∨
        build_signal df sym mf (calculate_support_resistance df).1
          (calculate_support_resistance df).2 = none) →
      fb_stage df sym (calculate_support_resistance df).1
        (calculate_support_resistance df).2 = none) ∧
    (sweep_stage df sym (calculate_support_resistance df).1
        (calculate_support_resistance df).2 = none →
      scan_stock sym df =
        (match fb_stage df sym (calculate_support_resistance df).1
            (calculate_support_resistance df).2 with
         | some s => some s
         | none => eng_stage df sym (calculate_support_resistance df).1
             (calculate_support_resistance df).2)) ∧
    (∀ s, scan_stock sym df = some s →
      sweep_stage df sym (calculate_support_resistance df).1
        (calculate_support_resistance df).2 = some s ∨
      fb_stage df sym (calculate_support_resistance df).1
        (calculate_support_resistance df).2 = some s ∨
      eng_stage df sym (calculate_support_resistance df).1
        (calculate_support_resistance df).2 = some s) := by
  have hnotlt : ¬ df.length < 30 := not_lt.mpr h30
  refine ⟨fun hdet hor => ?_, fun hdet hor => ?_, fun hnone => ?_, fun s hs => ?_⟩
  · rcases hor with hval | hbuild
    · simp [sweep_stage, hdet, hval]
    · cases hval2 : validate_sweep df (some m) <;>
        simp [sweep_stage, hdet, hval2, hbuild]
  · rcases hor with hval | hbuild
    · simp [fb_stage, hdet, hval]
    · cases hval2 : validate_false_breakout df (some mf) <;>
        simp [fb_stage, hdet, hval2, hbuild]
  · simp only [scan_stock, if_neg hnotlt, hnone]
  · simp only [scan_stock, if_neg hnotlt] at hs
    rcases h1 : sweep_stage df sym (calculate_support_resistance df).1
        (calculate_support_resistance df).2 with _ | v1
    · rw [h1] at hs
      rcases h2 : fb_stage df sym (calculate_support_resistance df).1
          (calculate_support_resistance df).2 with _ | v2
      · rw [h2] at hs
        exact Or.inr (Or.inr hs)
      · rw [h2] at hs
        exact Or.inr (Or.inl hs)
    · rw [h1] at hs
      exact Or.inl hs

set_option maxRecDepth 400000 in
/-- Witness for C5 on `df35b`: the sweep detects but fails the volume
validation, and the scan falls through and returns the false-breakout-derived
signal. -/
theorem c5_scan_fallthrough_witness :
    sweep_stage df35b "X" (calculate_support_resistance df35b).1
      (calculate_support_resistance df35b).2 = none ∧
    scan_stock "X" df35b = some s35b := by
  have h := c5_scan_fallthrough df35b "X" m35 m35f
    (of_decide_eq_true (by with_unfolding_all rfl))
  have h1 := h.1 (by with_unfolding_all rfl)
    (Or.inl (by with_unfolding_all rfl))
  refine ⟨h1, ?_⟩
  rw [h.2.2.1 h1]
  with_unfolding_all rfl

/-- Any match `detect_sweep`'s body emits carries a Liquidity Sweep pattern
name. -/
theorem detect_sweepE_names (df : List Candle) (m : PatternSignal)
    (h : detect_sweepE df = Except.ok (some m)) :
    m.pattern_name = "Bullish Liquidity Sweep" ∨
    m.pattern_name = "Bearish Liquidity Sweep" := by
  simp only [detect_sweepE] at h
  repeat' (split at h)
  all_goals first
    | exact Except.noConfusion h
    | (injection h with h2; exact Option.noConfusion h2)
    | (injection h with h2; injection h2 with h3; subst h3; simp)

/-- Any match `detect_sweep` returns carries a Liquidity Sweep pattern
name. -/
theorem detect_sweep_names (df : List Candle) (m : PatternSignal)
    (h : detect_sweep df = some m) :
    m.pattern_name = "Bullish Liquidity Sweep" ∨
    m.pattern_name = "Bearish Liquidity Sweep" := by
  rcases hE : detect_sweepE df with e | v
  · unfold detect_sweep at h
    rw [hE] at h
    simp [log_exceptions] at h
  · unfold detect_sweep at h
    rw [hE] at h
    simp only [log_exceptions, Option.join] at h
    subst h
    exact detect_sweepE_names df m hE

/-- Any match `detect_false_breakout`'s body emits carries a False Breakout
pattern name. -/
theorem detect_false_breakoutE_names (df : List Candle) (sl rl : List ℚ) (m : PatternSignal)
    (h : detect_false_breakoutE df sl rl = Except.ok (some m)) :
    m.pattern_name = "Bullish False Breakout" ∨
    m.pattern_name = "Bearish False Breakout" := by
  simp only [detect_false_breakoutE] at h
  repeat' (split at h)
  all_goals first
    | exact Except.noConfusion h
    | (injection h with h2; exact Option.noConfusion h2)
    | (injection h with h2; injection h2 with h3; subst h3; simp)

/-- Any match `detect_false_breakout` returns carries a False Breakout
pattern name. -/
theorem detect_false_breakout_names (df : List Candle) (sl rl : List ℚ) (m : PatternSignal)
    (h : detect_false_breakout df sl rl = some m) :
    m.pattern_name = "Bullish False Breakout" ∨
    m.pattern_name = "Bearish False Breakout" := by
  rcases hE : detect_false_breakoutE df sl rl with e | v
  · unfold detect_false_breakout at h
    rw [hE] at h
    simp [log_exceptions] at h
  · unfold detect_false_breakout at h
    rw [hE] at h
    simp only [log_exceptions, Option.join] at h
    subst h
    exact detect_false_breakoutE_names df sl rl m hE

/-- `_build_signal` copies the pattern name of the match it synthesizes
from. -/
theorem build_signal_pattern_name (df : List Candle) (sym : String) (ps : PatternSignal)
    (sl rl : List ℚ) (s : Signal)
    (h : build_signal df sym ps sl rl = some s) : s.pattern_name = ps.pattern_name := by
  rcases hE : build_signalE df sym ps sl rl with e | v
  · unfold build_signal at h
    rw [hE] at h
    simp [log_exceptions] at h
  · unfold build_signal at h
    rw [hE] at h
    simp only [log_exceptions, Option.join] at h
    subst h
    simp only [build_signalE] at hE
    repeat' (split at hE)
    all_goals first
      | exact Except.noConfusion hE
      | (injection hE with h2;
         first
           | exact Option.noConfusion h2
           | (injection h2 with h3; subst h3; simp))

/-- C4: when the liquidity-sweep pipeline fully succeeds on a frame that also
satisfies the false-breakout detection conditions, `scan_stock` returns the
sweep-derived signal (never the breakout-derived one: their pattern names
necessarily differ), and it returns at most that one signal. -/
theorem c4_sweep_priority (df : List Candle) (sym : String) (m mf : PatternSignal) (s : Signal)
    (h30 : 30 ≤ df.length)
    (hdet : detect_sweep df = some m)
    (hval : validate_sweep df (some m) = true)
    (hbuild : build_signal df sym m (calculate_support_resistance df).1
      (calculate_support_resistance df).2 = some s)
    (hfb : detect_false_breakout df (calculate_support_resistance df).1
      (calculate_support_resistance df).2 = some mf) :
    scan_stock sym df = some s ∧
    s.pattern_name = m.pattern_name ∧
    s.pattern_name ≠ mf.pattern_name ∧
    ∀ t, scan_stock sym df = some t → t = s := by
  have hstage : sweep_stage df sym (calculate_support_resistance df).1
      (calculate_support_resistance df).2 = some s := by
    simp [sweep_stage, hdet, hval, hbuild]
  have hscan : scan_stock sym df = some s := by
    simp only [scan_stock, if_neg (not_lt.mpr h30), hstage]
  have hname := build_signal_pattern_name df sym m _ _ s hbuild
  have hsw := detect_sweep_names df m hdet
  have hfbn := detect_false_breakout_names df _ _ mf hfb
  refine ⟨hscan, hname, ?_, fun t ht => ?_⟩
  · rw [hname]
    rcases hsw with h1 | h1 <;> rcases hfbn with h2 | h2 <;> rw [h1, h2] <;> decide
  · rw [hscan] at ht
    exact (Option.some_inj.mp ht).symm

set_option maxRecDepth 400000 in
/-- Witness for C4 on `df35`, where sweep and false breakout both fire. -/
theorem c4_sweep_priority_witness :
    scan_stock "X" df35 = some s35 ∧ s35.pattern_name ≠ m35f.pattern_name := by
  have h := c4_sweep_priority df35 "X" m35 m35f s35
    (of_decide_eq_true (by with_unfolding_all rfl))
    (by with_unfolding_all rfl)
    (by with_unfolding_all rfl)
    (by with_unfolding_all rfl)
    (by with_unfolding_all rfl)
  exact ⟨h.1, h.2.2.1⟩
